import Mathlib

/-!
Shallow embedding of `validate_filter_ip.py` (single-target liveness monitor
driving an IPv4 prefix-list filter) together with proofs about its
subnet-pairing function, its dampening state machine and its
filter-synchronization behaviour.

Conventions of the embedding:
* Python strings are Lean `String`s; `str.split(".")`, `str(int)` and `int(str)`
  are embedded as the executable functions `splitOnDot`, `natDigits` and
  `digitsVal` below.
* `exit(...)` (Python `SystemExit`) is embedded as `Except.error`.
* The external EOS rule store (reached through `jsonrpclib`) is embedded as a
  value of type `Store`; its list/insert/remove semantics follow the RuleStore
  contract of the specification (list entries, append on insert, remove by
  sequence number), since the store itself is not part of the repository.
-/

namespace ValidateFilterIp

/-! ## Decimal digit strings: embedding of Python `str(n)` and `int(s)` -/

/-- Decimal digit character for a value below ten. -/
def digitChar : Nat → Char
  | 0 => '0'
  | 1 => '1'
  | 2 => '2'
  | 3 => '3'
  | 4 => '4'
  | 5 => '5'
  | 6 => '6'
  | 7 => '7'
  | 8 => '8'
  | 9 => '9'
  | _ => '*'

/-- Fuel-driven decimal rendering (most significant digit first). -/
def natDigitsAux : Nat → Nat → List Char
  | 0, _ => []
  | fuel + 1, n =>
    if n < 10 then [digitChar n]
    else natDigitsAux fuel (n / 10) ++ [digitChar (n % 10)]

/-- Embedding of Python `str(n)` for a natural number `n`. -/
def natDigits (n : Nat) : List Char :=
  natDigitsAux (n + 1) n

/-- Numeric value of a digit character (embedding of `ord(c) - ord('0')`). -/
def digitVal (c : Char) : Nat := c.toNat - 48

/-- Embedding of Python `int(s)` on a string of decimal digits. -/
def digitsVal (cs : List Char) : Nat :=
  cs.foldl (fun a c => a * 10 + digitVal c) 0

/-- Decimal digit test. -/
def isDig (c : Char) : Bool := decide ('0' ≤ c) && decide (c ≤ '9')

theorem digitVal_digitChar : ∀ k, k < 10 → digitVal (digitChar k) = k := by decide

theorem isDig_digitChar : ∀ k, k < 10 → isDig (digitChar k) = true := by decide

theorem digitsVal_append_one (cs : List Char) (c : Char) :
    digitsVal (cs ++ [c]) = digitsVal cs * 10 + digitVal c := by
  simp [digitsVal, List.foldl_append]

theorem natDigitsAux_spec :
    ∀ fuel n, n < fuel →
      digitsVal (natDigitsAux fuel n) = n ∧
      (natDigitsAux fuel n).all isDig = true ∧
      natDigitsAux fuel n ≠ [] := by
  intro fuel
  induction fuel with
  | zero => intro n hn; omega
  | succ fuel ih =>
    intro n hn
    by_cases h10 : n < 10
    · simp only [natDigitsAux, if_pos h10]
      refine ⟨?_, ?_, by simp⟩
      · simp [digitsVal, digitVal_digitChar n h10]
      · simp [isDig_digitChar n h10]
    · simp only [natDigitsAux, if_neg h10]
      have hdiv : n / 10 < fuel := by omega
      obtain ⟨hval, hall, hne⟩ := ih (n / 10) hdiv
      refine ⟨?_, ?_, by simp⟩
      · rw [digitsVal_append_one, hval, digitVal_digitChar (n % 10) (by omega)]
        omega
      · simp only [List.all_append, hall, Bool.true_and, List.all_cons,
          List.all_nil, Bool.and_true]
        exact isDig_digitChar (n % 10) (by omega)

theorem digitsVal_natDigits (n : Nat) : digitsVal (natDigits n) = n :=
  (natDigitsAux_spec (n + 1) n (by omega)).1

theorem natDigits_all_isDig (n : Nat) : (natDigits n).all isDig = true :=
  (natDigitsAux_spec (n + 1) n (by omega)).2.1

theorem natDigits_ne_nil (n : Nat) : natDigits n ≠ [] :=
  (natDigitsAux_spec (n + 1) n (by omega)).2.2

theorem not_mem_of_all_isDig {cs : List Char} (h : cs.all isDig = true)
    {c : Char} (hc : isDig c = false) : c ∉ cs := by
  intro hmem
  have := List.all_eq_true.mp h c hmem
  rw [hc] at this
  exact Bool.noConfusion this

theorem dot_not_mem_natDigits (n : Nat) : '.' ∉ natDigits n :=
  not_mem_of_all_isDig (natDigits_all_isDig n) (by decide)

theorem colon_not_mem_natDigits (n : Nat) : ':' ∉ natDigits n :=
  not_mem_of_all_isDig (natDigits_all_isDig n) (by decide)

/-! ## Splitting on dots: embedding of Python `address.split(".")` -/

/-- Embedding of Python `s.split(".")` on the character list of `s`. -/
def splitOnDot : List Char → List (List Char)
  | [] => [[]]
  | c :: cs =>
    if c = '.' then [] :: splitOnDot cs
    else
      match splitOnDot cs with
      | [] => [[c]]
      | g :: gs => (c :: g) :: gs

theorem splitOnDot_ne_nil (cs : List Char) : splitOnDot cs ≠ [] := by
  induction cs with
  | nil => simp [splitOnDot]
  | cons c cs ih =>
    by_cases h : c = '.'
    · simp [splitOnDot, h]
    · simp only [splitOnDot, if_neg h]
      cases hs : splitOnDot cs with
      | nil => simp
      | cons g gs => simp

theorem splitOnDot_no_dot (cs : List Char) (h : '.' ∉ cs) :
    splitOnDot cs = [cs] := by
  induction cs with
  | nil => rfl
  | cons c cs ih =>
    have hc : c ≠ '.' := fun hc => h (hc ▸ List.mem_cons_self c cs)
    have hcs : '.' ∉ cs := fun hm => h (List.mem_cons_of_mem c hm)
    simp only [splitOnDot, if_neg hc, ih hcs]

theorem splitOnDot_append_dot (xs rest : List Char) (h : '.' ∉ xs) :
    splitOnDot (xs ++ '.' :: rest) = xs :: splitOnDot rest := by
  induction xs with
  | nil => simp [splitOnDot]
  | cons c xs ih =>
    have hc : c ≠ '.' := fun hc => h (hc ▸ List.mem_cons_self c xs)
    have hxs : '.' ∉ xs := fun hm => h (List.mem_cons_of_mem c hm)
    simp only [List.cons_append, splitOnDot, if_neg hc]
    rw [show xs.append ('.' :: rest) = xs ++ '.' :: rest from rfl, ih hxs]

/-! ## Subnet pairing: `is_valid_ipv4_address` and `network_s31` -/

/-- Octet component test: nonempty, all decimal digits, value at most 255. -/
def isOctetStr (cs : List Char) : Bool :=
  !cs.isEmpty && cs.all isDig && decide (digitsVal cs ≤ 255)

/-- Embedding of `is_valid_ipv4_address`.  The source defers the check to the
external library call `socket.inet_pton(socket.AF_INET, address)`; per the
specification that call accepts exactly the strings that parse as four
dot-separated octets in range 0-255, which is what this predicate decides. -/
def is_valid_ipv4_address (address : String) : Bool :=
  match splitOnDot address.toList with
  | [p0, p1, p2, p3] => isOctetStr p0 && isOctetStr p1 && isOctetStr p2 && isOctetStr p3
  | _ => false

/-- Failure modes of `network_s31`; Python `exit(msg)` is embedded as
`Except.error` carrying the failure kind. -/
inductive AddrFailure
  | unsupportedAddressFamily
  | invalidAddress
  deriving DecidableEq

/-- Embedding of `network_s31`: reject addresses containing a colon
(`exit("IPv6 not currently supported")`), reject invalid IPv4 addresses
(`exit("address ... does not appear to be valid")`), otherwise split into
octets, even out the fourth octet and append `/31`. -/
def network_s31 (address : String) : Except AddrFailure String :=
  if ':' ∈ address.toList then .error .unsupportedAddressFamily
  else if is_valid_ipv4_address address = false then .error .invalidAddress
  else
    match splitOnDot address.toList with
    | [p0, p1, p2, p3] =>
      if digitsVal p3 % 2 = 1 then
        .ok (String.mk (p0 ++ ('.' :: (p1 ++ ('.' :: (p2 ++ ('.' ::
          (natDigits (digitsVal p3 - 1) ++ ['/', '3', '1']))))))))
      else .ok (String.mk (address.toList ++ ['/', '3', '1']))
    | _ => .error .invalidAddress

/-- Canonical dotted-quad rendering of four octets, as fed to the program. -/
def renderIPv4 (a b c d : Nat) : String :=
  String.mk (natDigits a ++ ('.' :: (natDigits b ++ ('.' ::
    (natDigits c ++ ('.' :: natDigits d))))))

/-- Rendering of a /31 result: dotted quad followed by the `/31` suffix. -/
def render31 (a b c e : Nat) : String :=
  String.mk (natDigits a ++ ('.' :: (natDigits b ++ ('.' :: (natDigits c ++ ('.' ::
    (natDigits e ++ ['/', '3', '1'])))))))

theorem splitOnDot_renderIPv4 (a b c d : Nat) :
    splitOnDot (renderIPv4 a b c d).toList =
      [natDigits a, natDigits b, natDigits c, natDigits d] := by
  rw [show (renderIPv4 a b c d).toList = natDigits a ++ '.' ::
      (natDigits b ++ '.' :: (natDigits c ++ '.' :: natDigits d)) from rfl]
  rw [splitOnDot_append_dot _ _ (dot_not_mem_natDigits a),
    splitOnDot_append_dot _ _ (dot_not_mem_natDigits b),
    splitOnDot_append_dot _ _ (dot_not_mem_natDigits c),
    splitOnDot_no_dot _ (dot_not_mem_natDigits d)]

theorem isOctetStr_natDigits {n : Nat} (h : n ≤ 255) :
    isOctetStr (natDigits n) = true := by
  have hne : (natDigits n).isEmpty = false :=
    List.isEmpty_eq_false.mpr (natDigits_ne_nil n)
  simp [isOctetStr, natDigits_all_isDig, digitsVal_natDigits, h, hne]

theorem colon_not_mem_renderIPv4 (a b c d : Nat) :
    ':' ∉ (renderIPv4 a b c d).toList := by
  rw [show (renderIPv4 a b c d).toList = natDigits a ++ '.' ::
      (natDigits b ++ '.' :: (natDigits c ++ '.' :: natDigits d)) from rfl]
  simp only [List.mem_append, List.mem_cons]
  push_neg
  exact ⟨colon_not_mem_natDigits a, by decide,
    colon_not_mem_natDigits b, by decide,
    colon_not_mem_natDigits c, by decide, colon_not_mem_natDigits d⟩

theorem is_valid_renderIPv4 {a b c d : Nat}
    (ha : a ≤ 255) (hb : b ≤ 255) (hc : c ≤ 255) (hd : d ≤ 255) :
    is_valid_ipv4_address (renderIPv4 a b c d) = true := by
  rw [is_valid_ipv4_address, splitOnDot_renderIPv4]
  simp [isOctetStr_natDigits ha, isOctetStr_natDigits hb,
    isOctetStr_natDigits hc, isOctetStr_natDigits hd]

/-- C7: for every valid IPv4 address `a.b.c.d`, `network_s31` returns
`a.b.c.(d-1)/31` when `d` is odd and `a.b.c.d/31` when `d` is even; the first
three octets are unchanged and the fourth octet of the result is even, with
prefix length fixed at 31 (the `/31` suffix of `render31`). -/
theorem network_s31_pairs (a b c d : Nat)
    (ha : a ≤ 255) (hb : b ≤ 255) (hc : c ≤ 255) (hd : d ≤ 255) :
    network_s31 (renderIPv4 a b c d) =
      Except.ok (render31 a b c (if d % 2 = 1 then d - 1 else d)) ∧
    (if d % 2 = 1 then d - 1 else d) % 2 = 0 := by
  have hcolon := colon_not_mem_renderIPv4 a b c d
  have hvalid := is_valid_renderIPv4 ha hb hc hd
  constructor
  · rw [network_s31, if_neg hcolon, if_neg (by simp [hvalid])]
    have hsplit := splitOnDot_renderIPv4 a b c d
    rw [hsplit]
    rw [show (match [natDigits a, natDigits b, natDigits c, natDigits d] with
      | [p0, p1, p2, p3] =>
        if digitsVal p3 % 2 = 1 then
          Except.ok (String.mk (p0 ++ ('.' :: (p1 ++ ('.' :: (p2 ++ ('.' ::
            (natDigits (digitsVal p3 - 1) ++ ['/', '3', '1']))))))))
        else Except.ok (String.mk ((renderIPv4 a b c d).toList ++ ['/', '3', '1']))
      | _ => Except.error AddrFailure.invalidAddress) =
        (if digitsVal (natDigits d) % 2 = 1 then
          Except.ok (String.mk (natDigits a ++ ('.' :: (natDigits b ++ ('.' ::
            (natDigits c ++ ('.' :: (natDigits (digitsVal (natDigits d) - 1) ++
              ['/', '3', '1']))))))))
        else Except.ok (String.mk ((renderIPv4 a b c d).toList ++ ['/', '3', '1'])))
      from rfl]
    rw [digitsVal_natDigits d]
    by_cases hpar : d % 2 = 1
    · rw [if_pos hpar, if_pos hpar]
      rfl
    · rw [if_neg hpar, if_neg hpar]
      rw [show (renderIPv4 a b c d).toList = natDigits a ++ ('.' ::
        (natDigits b ++ ('.' :: (natDigits c ++ ('.' :: natDigits d))))) from rfl]
      simp [render31, List.append_assoc]
  · by_cases hpar : d % 2 = 1
    · simp only [if_pos hpar]
      omega
    · simp only [if_neg hpar]
      omega

/-- Witness for C7 at the spec's own examples: `10.0.0.5` and `10.0.0.4` both
map to `10.0.0.4/31`. -/
theorem network_s31_pairs_witness :
    (10 ≤ 255 ∧ 5 ≤ 255 ∧ 4 ≤ 255 ∧ 0 ≤ 255) ∧
    renderIPv4 10 0 0 5 = "10.0.0.5" ∧
    renderIPv4 10 0 0 4 = "10.0.0.4" ∧
    render31 10 0 0 4 = "10.0.0.4/31" ∧
    network_s31 (renderIPv4 10 0 0 5) =
      Except.ok (render31 10 0 0 (if 5 % 2 = 1 then 5 - 1 else 5)) ∧
    network_s31 (renderIPv4 10 0 0 4) =
      Except.ok (render31 10 0 0 (if 4 % 2 = 1 then 4 - 1 else 4)) :=
  ⟨by decide, by decide, by decide, by decide,
   (network_s31_pairs 10 0 0 5 (by decide) (by decide) (by decide) (by decide)).1,
   (network_s31_pairs 10 0 0 4 (by decide) (by decide) (by decide) (by decide)).1⟩

/-- C8: `network_s31` fails with the unsupported-address-family error for every
input containing a colon, fails with the invalid-address error for every other
input that does not parse as four dot-separated octets in range 0-255, and
returns normally only on valid IPv4 addresses. -/
theorem network_s31_rejects (s : String) :
    (':' ∈ s.toList → network_s31 s = Except.error AddrFailure.unsupportedAddressFamily) ∧
    (':' ∉ s.toList → is_valid_ipv4_address s = false →
      network_s31 s = Except.error AddrFailure.invalidAddress) ∧
    (∀ t, network_s31 s = Except.ok t →
      ':' ∉ s.toList ∧ is_valid_ipv4_address s = true) := by
  refine ⟨?_, ?_, ?_⟩
  · intro h
    rw [network_s31, if_pos h]
  · intro h hv
    rw [network_s31, if_neg h, if_pos hv]
  · intro t h
    by_cases hcolon : ':' ∈ s.toList
    · rw [network_s31, if_pos hcolon] at h
      exact absurd h (by simp)
    · refine ⟨hcolon, ?_⟩
      by_cases hv : is_valid_ipv4_address s = false
      · rw [network_s31, if_neg hcolon, if_pos hv] at h
        exact absurd h (by simp)
      · exact eq_true_of_ne_false hv

/-- Witness for C8: an IPv6-looking string is rejected as unsupported, and a
dotted string with an out-of-range octet is rejected as invalid. -/
theorem network_s31_rejects_witness :
    (':' ∈ ("fe80::1" : String).toList ∧
     ':' ∉ ("10.0.0.300" : String).toList ∧
     is_valid_ipv4_address "10.0.0.300" = false) ∧
    network_s31 "fe80::1" = Except.error AddrFailure.unsupportedAddressFamily ∧
    network_s31 "10.0.0.300" = Except.error AddrFailure.invalidAddress :=
  ⟨⟨by decide, by decide, by decide⟩,
   (network_s31_rejects "fe80::1").1 (by decide),
   (network_s31_rejects "10.0.0.300").2.1 (by decide) (by decide)⟩

/-! ## The rule store and the `check_filter` / `add_filter` / `remove_filter`
operations -/

/-- One prefix-list entry as reported by the store; `pfx` embeds the response
field named `prefix` and `seqno` the field named `seqno`. -/
structure Entry where
  pfx : String
  seqno : Nat
  deriving DecidableEq

/-- The named prefix list held by the external rule store: `none` when the
list does not exist, `some entries` otherwise. -/
abbrev Store := Option (List Entry)

/-- Store operations issued over the API, for reasoning about which calls a
code path performs. -/
inductive StoreOp
  | list
  | insert (pfx : String)
  | remove (seqno : Nat)
  deriving DecidableEq

/-- Embedding of the `while result: iterate = result.pop(); ...` loop of
`check_filter`, after reversal: `pop()` scans the entries from the end and
returns the first match found there. -/
def checkEntries (net : String) : List Entry → Bool × Nat
  | [] => (false, 0)
  | e :: rest => if e.pfx = net then (true, e.seqno) else checkEntries net rest

/-- Result component of `check_filter`: whether an entry with the given /31
prefix exists and, if so, its sequence number; a missing list is treated as
no match, `(False, 0)`. -/
def checkResult (net : String) (s : Store) : Bool × Nat :=
  match s with
  | none => (false, 0)
  | some entries => checkEntries net entries.reverse

/-- Embedding of `check_filter`: a read-only query (one `list` call) returning
the membership result and leaving the store unchanged. -/
def check_filter (net : String) (s : Store) : (Bool × Nat) × Store × List StoreOp :=
  (checkResult net s, s, [StoreOp.list])

/-- Modelled from the spec: the store assigns the sequence number of an
appended entry; the specification fixes no concrete numbering, so a fresh
number larger than every existing one is chosen. -/
def nextSeqno (s : Store) : Nat :=
  10 + (s.getD []).foldl (fun m e => max m e.seqno) 0

/-- Modelled from the spec: `insertEntry(listName, prefix)` of the RuleStore
contract appends a permit entry for the prefix, creating the list if absent. -/
def insertEntry (net : String) (s : Store) : Store :=
  some ((s.getD []) ++ [{ pfx := net, seqno := nextSeqno s }])

/-- Modelled from the spec: `removeEntry(listName, sequenceNumber)` of the
RuleStore contract removes by sequence number, never by prefix. -/
def removeEntry (q : Nat) (s : Store) : Store :=
  s.map (fun l => l.filter (fun e => e.seqno != q))

/-- Embedding of `add_filter`: one configuration call
`ip prefix-list NAME permit net31`, i.e. an unconditional insert. -/
def add_filter (net : String) (s : Store) : Store × List StoreOp :=
  (insertEntry net s, [StoreOp.insert net])

/-- Embedding of `remove_filter`: one configuration call
`no ip prefix-list NAME seq N`, i.e. removal by sequence number. -/
def remove_filter (q : Nat) (s : Store) : Store × List StoreOp :=
  (removeEntry q s, [StoreOp.remove q])

/-- The composite the main loop performs on a resurrection: `check_filter`
followed, only when a match was found, by `remove_filter` on the matched
sequence number (lines 330-335 of the source). -/
def ensureUnfiltered (net : String) (s : Store) : Store × List StoreOp :=
  let c := check_filter net s
  if c.1.1 then
    let r := remove_filter c.1.2 c.2.1
    (r.1, c.2.2 ++ r.2)
  else (c.2.1, c.2.2)

/-- Number of store entries whose prefix equals the given /31 string. -/
def matchCount (net : String) (s : Store) : Nat :=
  ((s.getD []).filter (fun e => e.pfx == net)).length

/-! ## The fallible layer: `build_connection` and store calls that can fail

Every store operation in the source first calls `build_connection`, which
calls `exit(...)` when the command-api socket is missing; inside the main
loop only `KeyboardInterrupt` is caught, so such an exit (or any raised
exception) terminates the process.  `Except.error` therefore models process
termination. -/

/-- Fatal outcome of a store call: the command-api socket is unavailable and
`build_connection` calls `exit(...)`. -/
inductive Fatal
  | storeUnavailable
  deriving DecidableEq

/-- Embedding of `build_connection`: succeeds when the command-api socket
exists, otherwise exits the process. -/
def build_connection (avail : Bool) : Except Fatal Unit :=
  if avail then Except.ok () else Except.error Fatal.storeUnavailable

/-- `check_filter` with its `build_connection` prologue: a failed connection
propagates as the uncaught exception it is in the source. -/
def check_filterE (avail : Bool) (net : String) (s : Store) :
    Except Fatal ((Bool × Nat) × Store × List StoreOp) :=
  match build_connection avail with
  | .error e => .error e
  | .ok _ => .ok (check_filter net s)

/-- `add_filter` with its `build_connection` prologue. -/
def add_filterE (avail : Bool) (net : String) (s : Store) :
    Except Fatal (Store × List StoreOp) :=
  match build_connection avail with
  | .error e => .error e
  | .ok _ => .ok (add_filter net s)

/-- `remove_filter` with its `build_connection` prologue. -/
def remove_filterE (avail : Bool) (q : Nat) (s : Store) :
    Except Fatal (Store × List StoreOp) :=
  match build_connection avail with
  | .error e => .error e
  | .ok _ => .ok (remove_filter q s)

/-! ## The dampening control loop -/

/-- One probe outcome, the abstraction of `alive, response = check.isAlive()`. -/
inductive Outcome
  | reachable
  | unreachable
  deriving DecidableEq

/-- Transition events of the specification, emitted at the code's transition
points (resurrection and death). -/
inductive Event
  | becameDead
  | becameAlive
  deriving DecidableEq

/-- Syslog notifications sent by `Notice().syslog(...)` calls of the loop. -/
inductive Notif
  | targetDead
  | targetAvailable
  | removedFromList
  deriving DecidableEq

/-- The loop's mutable state: `wasAlive`, `dampeningDead`, `dampeningAlive`. -/
structure LoopState where
  wasAlive : Bool
  dampeningDead : Nat
  dampeningAlive : Nat
  deriving DecidableEq

/-- Everything one loop iteration produces: the updated state and store plus
the transition events, syslog notifications and store operations it issued. -/
structure StepResult where
  state : LoopState
  store : Store
  events : List Event
  notifs : List Notif
  ops : List StoreOp
  deriving DecidableEq

/-- Embedding of one iteration of the `while True` body (lines 308-356),
assuming the store is reachable: on a reachable outcome reset
`dampeningDead`, and while not alive count successes up to the dampening
threshold `D`, resurrecting when the counter already equals `D`; on an
unreachable outcome increment `dampeningDead`, reset `dampeningAlive`, and
when alive with the counter at least `D` declare death, add the filter and
clear `wasAlive`. -/
def loopStep (D : Nat) (net : String) (st : LoopState) (s : Store) (o : Outcome) :
    StepResult :=
  match o with
  | .reachable =>
    let st1 : LoopState := { st with dampeningDead := 0 }
    if st1.wasAlive then
      { state := st1, store := s, events := [], notifs := [], ops := [] }
    else if st1.dampeningAlive < D then
      { state := { st1 with dampeningAlive := st1.dampeningAlive + 1 },
        store := s, events := [], notifs := [], ops := [] }
    else if st1.dampeningAlive = D then
      let st2 : LoopState := { st1 with wasAlive := true, dampeningAlive := 0 }
      let c := check_filter net s
      if c.1.1 then
        let r := remove_filter c.1.2 c.2.1
        { state := st2, store := r.1, events := [Event.becameAlive],
          notifs := [Notif.targetAvailable, Notif.removedFromList],
          ops := c.2.2 ++ r.2 }
      else
        { state := st2, store := c.2.1, events := [Event.becameAlive],
          notifs := [Notif.targetAvailable], ops := c.2.2 }
    else
      { state := st1, store := s, events := [], notifs := [], ops := [] }
  | .unreachable =>
    let st1 : LoopState :=
      { st with dampeningDead := st.dampeningDead + 1, dampeningAlive := 0 }
    if st1.wasAlive = true ∧ D ≤ st1.dampeningDead then
      let r := add_filter net s
      { state := { st1 with wasAlive := false }, store := r.1,
        events := [Event.becameDead], notifs := [Notif.targetDead], ops := r.2 }
    else
      { state := st1, store := s, events := [], notifs := [], ops := [] }

/-- One loop iteration with the `build_connection` prologue of each store
call made explicit: when the command-api socket has gone away, a store call
exits the process (only `KeyboardInterrupt` is caught by the loop). -/
def loopStepE (avail : Bool) (D : Nat) (net : String) (st : LoopState) (s : Store)
    (o : Outcome) : Except Fatal StepResult :=
  match o with
  | .reachable =>
    let st1 : LoopState := { st with dampeningDead := 0 }
    if st1.wasAlive then
      pure { state := st1, store := s, events := [], notifs := [], ops := [] }
    else if st1.dampeningAlive < D then
      pure { state := { st1 with dampeningAlive := st1.dampeningAlive + 1 },
             store := s, events := [], notifs := [], ops := [] }
    else if st1.dampeningAlive = D then
      let st2 : LoopState := { st1 with wasAlive := true, dampeningAlive := 0 }
      match check_filterE avail net s with
      | .error e => .error e
      | .ok c =>
        if c.1.1 then
          match remove_filterE avail c.1.2 c.2.1 with
          | .error e => .error e
          | .ok r =>
            .ok { state := st2, store := r.1, events := [Event.becameAlive],
                  notifs := [Notif.targetAvailable, Notif.removedFromList],
                  ops := c.2.2 ++ r.2 }
        else
          .ok { state := st2, store := c.2.1, events := [Event.becameAlive],
                notifs := [Notif.targetAvailable], ops := c.2.2 }
    else
      pure { state := st1, store := s, events := [], notifs := [], ops := [] }
  | .unreachable =>
    let st1 : LoopState :=
      { st with dampeningDead := st.dampeningDead + 1, dampeningAlive := 0 }
    if st1.wasAlive = true ∧ D ≤ st1.dampeningDead then
      match add_filterE avail net s with
      | .error e => .error e
      | .ok r =>
        .ok { state := { st1 with wasAlive := false }, store := r.1,
              events := [Event.becameDead], notifs := [Notif.targetDead], ops := r.2 }
    else
      pure { state := st1, store := s, events := [], notifs := [], ops := [] }

/-- Embedding of the startup sequence (lines 283-297): optimistic initial
state `wasAlive = True`, one reconciliation query, and `wasAlive` cleared
when the target is already filtered. -/
def startup (store0 : Store) (net : String) : LoopState × Store × List StoreOp :=
  let st : LoopState := { wasAlive := true, dampeningDead := 0, dampeningAlive := 0 }
  let c := check_filter net store0
  if c.1.1 then
    (if st.wasAlive then { st with wasAlive := false } else st, c.2.1, c.2.2)
  else (st, c.2.1, c.2.2)

/-- State and store after startup, the pair the loop starts from. -/
def startPair (store0 : Store) (net : String) : LoopState × Store :=
  ((startup store0 net).1, (startup store0 net).2.1)

/-- Run the loop over a list of outcomes, threading state and store. -/
def runSt (D : Nat) (net : String) : LoopState × Store → List Outcome → LoopState × Store
  | p, [] => p
  | p, o :: l =>
    let r := loopStep D net p.1 p.2 o
    runSt D net (r.state, r.store) l

/-- State and store after startup against `store0` followed by the outcomes. -/
def runPair (D : Nat) (net : String) (store0 : Store) (l : List Outcome) :
    LoopState × Store :=
  runSt D net (startPair store0 net) l

/-- All transition events a run emits, in order. -/
def runEvents (D : Nat) (net : String) : LoopState × Store → List Outcome → List Event
  | _, [] => []
  | p, o :: l =>
    let r := loopStep D net p.1 p.2 o
    r.events ++ runEvents D net (r.state, r.store) l

/-- Counter update a single outcome applies to the consecutive-unreachable
count: reset on reachable, increment on unreachable. -/
def updTrail (n : Nat) (o : Outcome) : Nat :=
  match o with
  | .reachable => 0
  | .unreachable => n + 1

/-- Number of consecutive unreachable outcomes at the end of the sequence
(the count since the last reachable outcome). -/
def trailingUnreach (l : List Outcome) : Nat :=
  l.foldl updTrail 0

/-- A /31 prefix string used for the concrete scenarios. -/
def net0 : String := "10.0.0.4/31"

/-- A store whose prefix list already contains the target's /31 entry. -/
def deadStore : Store := some [{ pfx := net0, seqno := 10 }]

/-- Outcome sequence of the spec's death scenario (D = 3, starting alive). -/
def scenarioDead : List Outcome :=
  [.unreachable, .unreachable, .reachable, .unreachable, .unreachable, .unreachable]

/-- Outcome sequence of the spec's resurrection scenario (D = 2, starting dead). -/
def scenarioAlive : List Outcome :=
  [.reachable, .unreachable, .reachable, .reachable]

/-! ## Helper lemmas about the loop -/

theorem loopStep_state_dampeningDead (D : Nat) (net : String) (st : LoopState)
    (s : Store) (o : Outcome) :
    (loopStep D net st s o).state.dampeningDead = updTrail st.dampeningDead o := by
  cases o <;> simp only [loopStep, updTrail] <;> split_ifs <;> rfl

theorem loopStep_aliveInv (D : Nat) (hD : 1 ≤ D) (net : String) (st : LoopState)
    (s : Store) (o : Outcome) (h : st.wasAlive = true → st.dampeningDead < D) :
    (loopStep D net st s o).state.wasAlive = true →
      (loopStep D net st s o).state.dampeningDead < D := by
  cases o with
  | reachable =>
    intro _
    rw [loopStep_state_dampeningDead]
    simp only [updTrail]
    omega
  | unreachable =>
    simp only [loopStep]
    split_ifs with hcond
    · intro ha
      exact absurd ha (by simp)
    · intro ha
      have hw : st.wasAlive = true := ha
      have hlt := h hw
      have : ¬ D ≤ st.dampeningDead + 1 := fun hle => hcond ⟨hw, hle⟩
      simpa using by omega

theorem runSt_state_dampeningDead (D : Nat) (net : String) :
    ∀ (l : List Outcome) (p : LoopState × Store),
      (runSt D net p l).1.dampeningDead = l.foldl updTrail p.1.dampeningDead := by
  intro l
  induction l with
  | nil => intro p; rfl
  | cons o l ih =>
    intro p
    rw [runSt, ih, List.foldl_cons, loopStep_state_dampeningDead]

theorem runSt_aliveInv (D : Nat) (hD : 1 ≤ D) (net : String) :
    ∀ (l : List Outcome) (p : LoopState × Store),
      (p.1.wasAlive = true → p.1.dampeningDead < D) →
      ((runSt D net p l).1.wasAlive = true → (runSt D net p l).1.dampeningDead < D) := by
  intro l
  induction l with
  | nil => intro p h; exact h
  | cons o l ih =>
    intro p h
    rw [runSt]
    exact ih _ (loopStep_aliveInv D hD net p.1 p.2 o h)

theorem startPair_dampeningDead (store0 : Store) (net : String) :
    (startPair store0 net).1.dampeningDead = 0 := by
  simp only [startPair, startup, check_filter]
  split_ifs <;> rfl

theorem startPair_wasAlive (store0 : Store) (net : String) :
    (startPair store0 net).1.wasAlive = !(checkResult net store0).1 := by
  simp only [startPair, startup, check_filter]
  cases h : (checkResult net store0).1 <;> simp [h]

theorem loopStep_emitsDead (D : Nat) (net : String) (st : LoopState) (s : Store)
    (o : Outcome) (hInv : st.wasAlive = true → st.dampeningDead < D) :
    Event.becameDead ∈ (loopStep D net st s o).events ↔
      (st.wasAlive = true ∧ o = Outcome.unreachable ∧ st.dampeningDead + 1 = D) := by
  cases o with
  | reachable =>
    simp only [loopStep]
    split_ifs <;> simp
  | unreachable =>
    simp only [loopStep]
    split_ifs with hcond
    · obtain ⟨hw, hle⟩ := hcond
      have hw' : st.wasAlive = true := hw
      have := hInv hw'
      simp only [List.mem_singleton, true_iff]
      exact ⟨hw', by trivial, by omega⟩
    · have : ¬ (st.wasAlive = true ∧ D ≤ st.dampeningDead + 1) := hcond
      simp only [List.not_mem_nil, false_iff, not_and]
      intro hw _
      intro heq
      exact this ⟨hw, by omega⟩

theorem checkEntries_finds (net : String) :
    ∀ (l : List Entry), (checkEntries net l).1 = true →
      ∃ e, e ∈ l ∧ e.seqno = (checkEntries net l).2 ∧ e.pfx = net := by
  intro l
  induction l with
  | nil => simp [checkEntries]
  | cons e rest ih =>
    simp only [checkEntries]
    split_ifs with he
    · intro _
      exact ⟨e, List.mem_cons_self e rest, rfl, he⟩
    · intro h
      obtain ⟨f, hf, hs, hp⟩ := ih h
      exact ⟨f, List.mem_cons_of_mem e hf, hs, hp⟩

theorem matchCount_insertEntry (net : String) (s : Store) :
    matchCount net (insertEntry net s) = matchCount net s + 1 := by
  simp [matchCount, insertEntry, List.filter_append]

theorem check_filterE_true (net : String) (s : Store) :
    check_filterE true net s = Except.ok (check_filter net s) := rfl

theorem add_filterE_true (net : String) (s : Store) :
    add_filterE true net s = Except.ok (add_filter net s) := rfl

theorem remove_filterE_true (q : Nat) (s : Store) :
    remove_filterE true q s = Except.ok (remove_filter q s) := rfl

/-! ## Claim theorems about the loop -/

/-- C2: for every threshold D at least 1, every initial store and every
outcome sequence, a step emits BecameDead exactly when the believed state is
alive and the outcome is the D-th consecutive Unreachable since the last
Reachable (the counter resetting to 0 on any Reachable); the spec's D = 3
scenario Unreachable, Unreachable, Reachable, Unreachable, Unreachable,
Unreachable starting Up emits BecameDead exactly once, after outcome 6. -/
theorem becameDead_iff_Dth_consecutive (D : Nat) (hD : 1 ≤ D) (net : String)
    (store0 : Store) (pre : List Outcome) (o : Outcome) :
    (Event.becameDead ∈
        (loopStep D net (runPair D net store0 pre).1 (runPair D net store0 pre).2 o).events ↔
      ((runPair D net store0 pre).1.wasAlive = true ∧ o = Outcome.unreachable ∧
        trailingUnreach (pre ++ [o]) = D)) ∧
    (o = Outcome.reachable →
      (loopStep D net (runPair D net store0 pre).1 (runPair D net store0 pre).2
        o).state.dampeningDead = 0) ∧
    runEvents 3 net0 (startPair none net0) scenarioDead = [Event.becameDead] ∧
    runEvents 3 net0 (startPair none net0) (scenarioDead.take 5) = [] := by
  have hdd : (runPair D net store0 pre).1.dampeningDead = trailingUnreach pre := by
    rw [runPair, runSt_state_dampeningDead, startPair_dampeningDead]
    rfl
  have hinv : (runPair D net store0 pre).1.wasAlive = true →
      (runPair D net store0 pre).1.dampeningDead < D := by
    apply runSt_aliveInv D hD net
    intro _
    rw [startPair_dampeningDead]
    omega
  refine ⟨?_, ?_, by decide, by decide⟩
  · rw [loopStep_emitsDead D net _ _ o hinv, hdd]
    constructor
    · rintro ⟨hw, rfl, hsum⟩
      refine ⟨hw, rfl, ?_⟩
      rw [trailingUnreach, List.foldl_append]
      simpa [updTrail] using hsum
    · rintro ⟨hw, rfl, hsum⟩
      refine ⟨hw, rfl, ?_⟩
      rw [trailingUnreach, List.foldl_append] at hsum
      simpa [updTrail] using hsum
  · rintro rfl
    rw [loopStep_state_dampeningDead]
    rfl

/-- Witness for C2: the D = 3 death scenario, at its sixth outcome. -/
theorem becameDead_iff_Dth_consecutive_witness :
    (1 ≤ 3 ∧ trailingUnreach (scenarioDead.take 5 ++ [Outcome.unreachable]) = 3) ∧
    (Event.becameDead ∈
        (loopStep 3 net0 (runPair 3 net0 none (scenarioDead.take 5)).1
          (runPair 3 net0 none (scenarioDead.take 5)).2 Outcome.unreachable).events ↔
      ((runPair 3 net0 none (scenarioDead.take 5)).1.wasAlive = true ∧
        Outcome.unreachable = Outcome.unreachable ∧
        trailingUnreach (scenarioDead.take 5 ++ [Outcome.unreachable]) = 3)) :=
  ⟨by decide,
   (becameDead_iff_Dth_consecutive 3 (by decide) net0 none (scenarioDead.take 5)
     Outcome.unreachable).1⟩

/-- C1 (code-bug evaluation): with D = 2 and the believed state dead after a
startup that found the filter entry present, the sequence Reachable,
Unreachable, Reachable, Reachable emits no BecameAlive at all — the claim
and the spec's scenario require exactly one, after the final Reachable — and
the resurrection fires only on a fifth, (D+1)-th consecutive Reachable. -/
theorem resurrection_requires_D_plus_one :
    runEvents 2 net0 (startPair deadStore net0) scenarioAlive = [] ∧
    (runPair 2 net0 deadStore scenarioAlive).1.wasAlive = false ∧
    (runPair 2 net0 deadStore scenarioAlive).1.dampeningAlive = 2 ∧
    runEvents 2 net0 (startPair deadStore net0) (scenarioAlive ++ [Outcome.reachable]) =
      [Event.becameAlive] := by
  refine ⟨by decide, by decide, by decide, by decide⟩

/-- C10: while the believed state is dead, an unreachable outcome produces no
event, no notification and no store operation, leaves the store unchanged and
keeps the state dead while the failure counter keeps incrementing (past D);
every BecameDead emission starts from an alive state and ends in a dead one
(so the dead-transition action fires at most once per alive-to-dead episode);
and a restart that finds the filter entry present starts in the dead state. -/
theorem dead_episode_silent (D : Nat) (net : String) (st : LoopState) (s : Store)
    (h : st.wasAlive = false) :
    ((loopStep D net st s Outcome.unreachable).events = [] ∧
     (loopStep D net st s Outcome.unreachable).notifs = [] ∧
     (loopStep D net st s Outcome.unreachable).ops = [] ∧
     (loopStep D net st s Outcome.unreachable).store = s ∧
     (loopStep D net st s Outcome.unreachable).state.wasAlive = false ∧
     (loopStep D net st s Outcome.unreachable).state.dampeningDead =
       st.dampeningDead + 1) ∧
    (∀ (st' : LoopState) (s' : Store) (o : Outcome),
      Event.becameDead ∈ (loopStep D net st' s' o).events →
        st'.wasAlive = true ∧ (loopStep D net st' s' o).state.wasAlive = false) ∧
    (∀ (store0 : Store), (checkResult net store0).1 = true →
      (startup store0 net).1.wasAlive = false) := by
  refine ⟨?_, ?_, ?_⟩
  · simp only [loopStep]
    rw [if_neg (show ¬ (st.wasAlive = true ∧ D ≤ st.dampeningDead + 1) by simp [h])]
    exact ⟨rfl, rfl, rfl, rfl, h, rfl⟩
  · intro st' s' o
    cases o with
    | reachable =>
      simp only [loopStep]
      split_ifs <;> simp
    | unreachable =>
      simp only [loopStep]
      split_ifs with hc
      · intro _
        exact ⟨hc.1, rfl⟩
      · simp
  · intro store0 hfound
    simp only [startup, check_filter]
    rw [if_pos hfound]
    rfl

/-- Witness for C10: a dead state with the counter already past D = 2 stays
silent on a further unreachable outcome and keeps counting. -/
theorem dead_episode_silent_witness :
    ((⟨false, 5, 0⟩ : LoopState).wasAlive = false) ∧
    (loopStep 2 net0 ⟨false, 5, 0⟩ deadStore Outcome.unreachable).events = [] ∧
    (loopStep 2 net0 ⟨false, 5, 0⟩ deadStore Outcome.unreachable).ops = [] ∧
    (loopStep 2 net0 ⟨false, 5, 0⟩ deadStore Outcome.unreachable).state.dampeningDead =
      5 + 1 :=
  ⟨rfl, (dead_episode_silent 2 net0 ⟨false, 5, 0⟩ deadStore rfl).1.1,
   (dead_episode_silent 2 net0 ⟨false, 5, 0⟩ deadStore rfl).1.2.2.1,
   (dead_episode_silent 2 net0 ⟨false, 5, 0⟩ deadStore rfl).1.2.2.2.2.2⟩

/-- C3 counterexample: on a BecameDead transition the code issues a single
unconditional insert and no list query, so when the entry is already present
the store ends up with two matching entries; likewise two inserts in
succession starting from an empty store leave two entries, not one. -/
theorem ensureFiltered_not_guarded :
    (loopStep 1 net0 ⟨true, 0, 0⟩ deadStore Outcome.unreachable).events =
      [Event.becameDead] ∧
    (loopStep 1 net0 ⟨true, 0, 0⟩ deadStore Outcome.unreachable).ops =
      [StoreOp.insert net0] ∧
    StoreOp.list ∉ (loopStep 1 net0 ⟨true, 0, 0⟩ deadStore Outcome.unreachable).ops ∧
    matchCount net0 deadStore = 1 ∧
    matchCount net0 (loopStep 1 net0 ⟨true, 0, 0⟩ deadStore Outcome.unreachable).store = 2 ∧
    matchCount net0 (add_filter net0 (add_filter net0 none).1).1 = 2 := by
  decide

/-- C3 (amended): the filter action of a BecameDead transition is an
unconditional insert: whenever the transition fires, the loop issues exactly
one insert operation and no list query, and the number of matching store
entries grows by one whatever the store already contains; a single insertion
per alive-to-dead episode is guaranteed by the state machine (which fires the
transition only from an alive state), not by the operation itself. -/
theorem becameDead_unconditional_insert (D : Nat) (net : String) (st : LoopState)
    (s : Store) (hw : st.wasAlive = true) (hD : D ≤ st.dampeningDead + 1) :
    (loopStep D net st s Outcome.unreachable).events = [Event.becameDead] ∧
    (loopStep D net st s Outcome.unreachable).ops = [StoreOp.insert net] ∧
    (loopStep D net st s Outcome.unreachable).store = insertEntry net s ∧
    matchCount net (loopStep D net st s Outcome.unreachable).store =
      matchCount net s + 1 := by
  simp only [loopStep]
  rw [if_pos (show st.wasAlive = true ∧ D ≤ st.dampeningDead + 1 from ⟨hw, hD⟩)]
  exact ⟨rfl, rfl, rfl, matchCount_insertEntry net s⟩

/-- Witness for C3's amended theorem: firing the death transition from an
alive state with D = 3 inserts one matching entry. -/
theorem becameDead_unconditional_insert_witness :
    ((⟨true, 2, 0⟩ : LoopState).wasAlive = true ∧ 3 ≤ 2 + 1) ∧
    matchCount net0 (loopStep 3 net0 ⟨true, 2, 0⟩ none Outcome.unreachable).store =
      matchCount net0 none + 1 :=
  ⟨⟨rfl, by decide⟩,
   (becameDead_unconditional_insert 3 net0 ⟨true, 2, 0⟩ none rfl (by decide)).2.2.2⟩

/-- C4 counterexample: when the store already holds the matching entry, the
startup reconciliation does force a state change — the believed state ends
dead, not the optimistic initial Up. -/
theorem startup_forces_state_change :
    (checkResult net0 deadStore).1 = true ∧
    (startup deadStore net0).1.wasAlive = false := by
  decide

/-- C4 (amended): the startup reconciliation query is read-only against the
store — it issues a single list operation and leaves the store unchanged,
with both dampening counters zero — but it does change the believed state:
the state stays the optimistic Up exactly when no matching entry exists, and
is set to dead when one does. -/
theorem startup_readonly_sets_state (store0 : Store) (net : String) :
    (startup store0 net).2.1 = store0 ∧
    (startup store0 net).2.2 = [StoreOp.list] ∧
    (startup store0 net).1.dampeningDead = 0 ∧
    (startup store0 net).1.dampeningAlive = 0 ∧
    (startup store0 net).1.wasAlive = !(checkResult net store0).1 := by
  simp only [startup, check_filter]
  cases h : (checkResult net store0).1 <;> simp [h]

/-- C5 counterexample: if the command-api socket is gone when the death
transition fires, the iteration ends in a fatal error — the process
terminates (only KeyboardInterrupt is caught), it does not log and continue. -/
theorem store_failure_terminates :
    loopStepE false 1 net0 ⟨true, 0, 0⟩ none Outcome.unreachable =
      Except.error Fatal.storeUnavailable := rfl

/-- C5 (amended): steady-state rule-store failures are not absorbed: when a
transition fires while the store is unreachable, the iteration escalates to
process termination; iterations that perform no store operation, and all
iterations while the store is reachable, continue normally. -/
theorem store_failure_handling (D : Nat) (net : String) (st : LoopState) (s : Store) :
    (st.wasAlive = true → D ≤ st.dampeningDead + 1 →
      loopStepE false D net st s Outcome.unreachable =
        Except.error Fatal.storeUnavailable) ∧
    (st.wasAlive = false → st.dampeningAlive = D →
      loopStepE false D net st s Outcome.reachable =
        Except.error Fatal.storeUnavailable) ∧
    (∀ o, loopStepE true D net st s o = Except.ok (loopStep D net st s o)) ∧
    (st.wasAlive = true →
      loopStepE false D net st s Outcome.reachable =
        Except.ok (loopStep D net st s Outcome.reachable)) ∧
    (st.wasAlive = false →
      loopStepE false D net st s Outcome.unreachable =
        Except.ok (loopStep D net st s Outcome.unreachable)) := by
  refine ⟨?_, ?_, ?_, ?_, ?_⟩
  · intro hw hD
    simp only [loopStepE]
    rw [if_pos (show st.wasAlive = true ∧ D ≤ st.dampeningDead + 1 from ⟨hw, hD⟩)]
    rfl
  · intro hw hDA
    simp only [loopStepE]
    rw [if_neg (show ¬ st.wasAlive = true by simp [hw]),
      if_neg (show ¬ st.dampeningAlive < D by omega), if_pos hDA]
    rfl
  · intro o
    cases o <;>
      simp only [loopStep, loopStepE, check_filterE_true, add_filterE_true,
        remove_filterE_true] <;>
      split_ifs <;> rfl
  · intro hw
    simp only [loopStep, loopStepE]
    rw [if_pos hw, if_pos hw]
    rfl
  · intro hw
    simp only [loopStep, loopStepE]
    rw [if_neg (show ¬ (st.wasAlive = true ∧ D ≤ st.dampeningDead + 1) by simp [hw]),
      if_neg (show ¬ (st.wasAlive = true ∧ D ≤ st.dampeningDead + 1) by simp [hw])]
    rfl

/-- Witness for C5's amended theorem: a concrete dead transition with the
socket gone terminates, while the same iteration with the socket present
succeeds. -/
theorem store_failure_handling_witness :
    ((⟨true, 0, 0⟩ : LoopState).wasAlive = true ∧ 1 ≤ 0 + 1) ∧
    loopStepE false 1 net0 ⟨true, 0, 0⟩ none Outcome.unreachable =
      Except.error Fatal.storeUnavailable ∧
    loopStepE true 1 net0 ⟨true, 0, 0⟩ none Outcome.unreachable =
      Except.ok (loopStep 1 net0 ⟨true, 0, 0⟩ none Outcome.unreachable) :=
  ⟨⟨rfl, by decide⟩,
   (store_failure_handling 1 net0 ⟨true, 0, 0⟩ none).1 rfl (by decide),
   (store_failure_handling 1 net0 ⟨true, 0, 0⟩ none).2.2.1 Outcome.unreachable⟩

/-- C6: the resurrection-path ensure-unfiltered composite lists the store
first; with no matching entry it is a no-op (store unchanged, no error);
with a match it removes the matched entry by its sequence number (the remove
operation carries only the sequence number, and the matched entry with that
number has the target prefix); and this composite is exactly what the loop
performs on a BecameAlive transition. -/
theorem ensureUnfiltered_lists_then_removes (net : String) (s : Store) :
    ((checkResult net s).1 = false → ensureUnfiltered net s = (s, [StoreOp.list])) ∧
    ((checkResult net s).1 = true →
      ensureUnfiltered net s =
        (removeEntry (checkResult net s).2 s,
         [StoreOp.list, StoreOp.remove (checkResult net s).2]) ∧
      ∃ e, e ∈ s.getD [] ∧ e.seqno = (checkResult net s).2 ∧ e.pfx = net) ∧
    (∀ (D : Nat) (st : LoopState), st.wasAlive = false → st.dampeningAlive = D →
      (loopStep D net st s Outcome.reachable).store = (ensureUnfiltered net s).1 ∧
      (loopStep D net st s Outcome.reachable).ops = (ensureUnfiltered net s).2) := by
  refine ⟨?_, ?_, ?_⟩
  · intro hmiss
    simp only [ensureUnfiltered, check_filter]
    rw [if_neg (by rw [hmiss]; exact Bool.noConfusion)]
  · intro hfound
    constructor
    · simp only [ensureUnfiltered, check_filter, remove_filter]
      rw [if_pos hfound]
      rfl
    · match s, hfound with
      | some entries, hfound =>
        have h := checkEntries_finds net entries.reverse hfound
        obtain ⟨e, he, hs, hp⟩ := h
        exact ⟨e, List.mem_reverse.mp he, hs, hp⟩
  · intro D st hw hDA
    simp only [loopStep, ensureUnfiltered, check_filter, remove_filter]
    rw [if_neg (show ¬ st.wasAlive = true by simp [hw]),
      if_neg (show ¬ st.dampeningAlive < D by omega), if_pos hDA]
    split_ifs <;> exact ⟨rfl, rfl⟩

/-- Witness for C6: against a store holding the entry at sequence number 10
the composite removes by that number; against a missing list it is a no-op;
and a BecameAlive transition performs exactly the composite. -/
theorem ensureUnfiltered_lists_then_removes_witness :
    ((checkResult net0 deadStore).1 = true ∧ (checkResult net0 none).1 = false ∧
     (⟨false, 0, 2⟩ : LoopState).wasAlive = false) ∧
    ensureUnfiltered net0 deadStore =
      (removeEntry (checkResult net0 deadStore).2 deadStore,
       [StoreOp.list, StoreOp.remove (checkResult net0 deadStore).2]) ∧
    ensureUnfiltered net0 none = (none, [StoreOp.list]) ∧
    (loopStep 2 net0 ⟨false, 0, 2⟩ deadStore Outcome.reachable).ops =
      (ensureUnfiltered net0 deadStore).2 :=
  ⟨⟨by decide, by decide, rfl⟩,
   ((ensureUnfiltered_lists_then_removes net0 deadStore).2.1 (by decide)).1,
   (ensureUnfiltered_lists_then_removes net0 none).1 (by decide),
   ((ensureUnfiltered_lists_then_removes net0 deadStore).2.2 2 ⟨false, 0, 2⟩
     rfl rfl).2⟩

/-- C9: a missing prefix list is treated as empty rather than an error: the
membership check returns (False, 0) without raising, its result is the same
as for an existing empty list, and both ensure operations behave against the
missing list exactly as against an empty one. -/
theorem missing_list_as_empty (net : String) :
    (check_filter net none).1 = (false, 0) ∧
    check_filterE true net none = Except.ok (check_filter net none) ∧
    (check_filter net none).1 = (check_filter net (some [])).1 ∧
    ensureUnfiltered net none = (none, [StoreOp.list]) ∧
    (ensureUnfiltered net (some [])).1 = some [] ∧
    (ensureUnfiltered net (some [])).2 = [StoreOp.list] ∧
    (add_filter net none).1 = (add_filter net (some [])).1 ∧
    (add_filter net none).2 = (add_filter net (some [])).2 :=
  ⟨rfl, rfl, rfl, rfl, rfl, rfl, rfl, rfl⟩

end ValidateFilterIp
